import Mathlib

/-!
# Verification of the `flutter_doclayout_kit` detection pipeline

Shallow embedding of `src/src/detect/doc_detector.cpp` (`detectDocLayout`,
`detectionsToJson`) and the JSON-building parts of `src/src/native_lib.cpp`
(`detectLayout`, `detectLayoutFromBytes`).

Modelling conventions:
* C `float` values are modelled as exact rationals (`ℚ`); the claims under
  study are about control flow, tensor layout, clamping and filtering, not
  about rounding of IEEE arithmetic.
* The ONNX Runtime session is modelled as a record carrying the declared
  input count and a `run` function from (input names, input tensors) to
  either a raw output tensor or an error; C++ exceptions thrown by session
  creation or by `Run` are modelled with `Except`.
* The image blob produced by `imageToBlob` is carried opaquely
  (`TensorVal.imageBlob`): no claim depends on the pixel contents.
* `DOC_CLASSES` (declared in the header `doc_detector.h`, which is not part
  of the sources) is a fixed taxonomy table; it is passed as an explicit
  `List String` parameter, so every theorem quantifies over all possible
  taxonomy tables.
-/

/-- C++ `static_cast<int>` on a floating value: truncation toward zero. -/
def truncToInt (q : ℚ) : ℤ := if 0 ≤ q then ⌊q⌋ else -⌊-q⌋

/-- `std::min(a, b)`: returns `b` when `b < a`, else `a`. -/
def cppMin (a b : ℚ) : ℚ := if b < a then b else a

/-- `std::max(a, b)`: returns `b` when `a < b`, else `a`. -/
def cppMax (a b : ℚ) : ℚ := if a < b then b else a

/-- `std::max(lo, std::min(v, hi))`, the clamping pattern used at
`doc_detector.cpp:169-172`. -/
def clamp (lo hi v : ℚ) : ℚ := cppMax lo (cppMin v hi)

/-- `DetectionBox` from `doc_detector.h`, as populated at
`doc_detector.cpp:162-176`. -/
structure DetectionBox where
  x1 : ℚ
  y1 : ℚ
  x2 : ℚ
  y2 : ℚ
  score : ℚ
  class_id : ℤ
  class_name : String
deriving DecidableEq, Repr

/-- The part of a `cv::Mat` the pipeline observes: row count (height) and
column count (width). -/
structure CvMat where
  rows : ℕ
  cols : ℕ
deriving DecidableEq, Repr

/-- `cv::Mat::empty()`: true when the matrix holds no pixels. -/
def CvMat.isEmpty (m : CvMat) : Bool := m.rows == 0 || m.cols == 0

/-- Failure categories of the runtime/image libraries, thrown as C++
exceptions and caught at `doc_detector.cpp:185-191`. -/
inductive OrtError where
  | modelLoadFailure
  | inferenceFailure
  | cvFailure
  | otherFailure
deriving DecidableEq, Repr

/-- An input tensor as submitted to `session.Run`: either the packed image
blob (contents opaque) or a flat float vector. -/
inductive TensorVal where
  | imageBlob (m : CvMat)
  | floats (v : List ℚ)
deriving DecidableEq, Repr

/-- The primary output tensor: `dim0 = output_shape[0]` (the number of raw
candidate rows) and the flat float buffer `output_data`. -/
structure RawOutput where
  dim0 : ℕ
  data : ℕ → ℚ

/-- The ONNX Runtime session: declared input/output counts, and `Run` as a
function from (input names, input tensors) to output-or-exception. -/
structure OrtSession where
  numInputs : ℕ
  numOutputs : ℕ
  run : List String → List TensorVal → Except OrtError RawOutput

/-- The ambient runtime environment: session creation from the configured
model path, which may fail (model-load failure). -/
structure OrtEnvModel where
  createSession : Except OrtError OrtSession

/-- Modelled from the spec: `preprocessImage` (declared in `doc_detector.h`;
its definition is not among the sources).  Spec §4.1: plain stretch resize of
the input image to the fixed `target_width × target_height`, returning the
resized image and the `ScaleFactor`
`(target_width / original_width, target_height / original_height)`. -/
def preprocessImage (image : CvMat) (target_width target_height : ℕ) :
    CvMat × (ℚ × ℚ) :=
  (⟨target_height, target_width⟩,
   ((target_width : ℚ) / (image.cols : ℚ), (target_height : ℚ) / (image.rows : ℚ)))

/-- The box built from candidate row `i` of the flat output buffer, after
inverse scaling and clamping (`doc_detector.cpp:162-176`). -/
def rowBox (classes : List String) (inv_scale_x inv_scale_y : ℚ)
    (cols rows : ℕ) (data : ℕ → ℚ) (i : ℕ) : DetectionBox :=
  { x1 := clamp 0 (cols : ℚ) (data (i * 6 + 2) * inv_scale_x)
    y1 := clamp 0 (rows : ℚ) (data (i * 6 + 3) * inv_scale_y)
    x2 := clamp 0 (cols : ℚ) (data (i * 6 + 4) * inv_scale_x)
    y2 := clamp 0 (rows : ℚ) (data (i * 6 + 5) * inv_scale_y)
    score := data (i * 6 + 1)
    class_id := truncToInt (data (i * 6 + 0))
    class_name := classes.getD (truncToInt (data (i * 6 + 0))).toNat "" }

/-- The filter condition of `doc_detector.cpp:161`:
`score >= conf_threshold && class_id >= 0 && class_id < DOC_CLASSES.size()`. -/
def rowKeep (classes : List String) (conf_threshold : ℚ) (data : ℕ → ℚ)
    (i : ℕ) : Prop :=
  conf_threshold ≤ data (i * 6 + 1) ∧
    0 ≤ truncToInt (data (i * 6 + 0)) ∧
    truncToInt (data (i * 6 + 0)) < (classes.length : ℤ)

instance (classes : List String) (conf_threshold : ℚ) (data : ℕ → ℚ) (i : ℕ) :
    Decidable (rowKeep classes conf_threshold data i) := by
  unfold rowKeep; infer_instance

/-- The decode loop of `doc_detector.cpp:152-182`, iterating candidate rows
`0, 1, …, n-1` in order and appending a `DetectionBox` for each row passing
the filter. -/
def decodeDetections (classes : List String) (conf_threshold : ℚ)
    (inv_scale_x inv_scale_y : ℚ) (cols rows : ℕ) (data : ℕ → ℚ) :
    ℕ → List DetectionBox
  | 0 => []
  | n + 1 =>
    decodeDetections classes conf_threshold inv_scale_x inv_scale_y cols rows data n ++
      (if rowKeep classes conf_threshold data n then
        [rowBox classes inv_scale_x inv_scale_y cols rows data n]
      else [])

/-- The body of the `try` block of `detectDocLayout`
(`doc_detector.cpp:17-183`): create the session, preprocess, build the
schema-dependent tensor set (`doc_detector.cpp:82-114`), run inference, and
decode with the schema-dependent inverse scale
(`doc_detector.cpp:147-182`). -/
def pipelineBody (env : OrtEnvModel) (image : CvMat) (conf_threshold : ℚ)
    (classes : List String) : Except OrtError (List DetectionBox) := do
  let session ← env.createSession
  let target_width : ℕ := 640
  let target_height : ℕ := 640
  let pre := preprocessImage image target_width target_height
  let resized_img := pre.1
  let scale_factor := pre.2
  let is_l_model := session.numInputs == 3
  let input_names : List String :=
    if is_l_model then ["im_shape", "image", "scale_factor"]
    else ["image", "scale_factor"]
  let input_tensors : List TensorVal :=
    if is_l_model then
      [TensorVal.floats [(image.rows : ℚ), (image.cols : ℚ)],
       TensorVal.imageBlob resized_img,
       TensorVal.floats [1, 1]]
    else
      [TensorVal.imageBlob resized_img,
       TensorVal.floats [scale_factor.1, scale_factor.2]]
  let out ← session.run input_names input_tensors
  let inv_scale_x := if is_l_model then 1 else 1 / scale_factor.1
  let inv_scale_y := if is_l_model then 1 else 1 / scale_factor.2
  pure (decodeDetections classes conf_threshold inv_scale_x inv_scale_y
    image.cols image.rows out.data out.dim0)

/-- `detectDocLayout` (`doc_detector.cpp:7-194`): empty-image guard, then the
`try` body with every exception swallowed into the (still empty) result
list. -/
def detectDocLayout (env : OrtEnvModel) (image : CvMat) (conf_threshold : ℚ)
    (classes : List String) : List DetectionBox :=
  if image.isEmpty then []
  else
    match pipelineBody env image conf_threshold classes with
    | .ok r => r
    | .error _ => []

/-- The first-dimension rows of the `[N, 6]` primary output tensor: row `i`
is the 6 consecutive buffer elements starting at flat offset `i * 6`. -/
def tensorRows (data : ℕ → ℚ) (n : ℕ) : List (List ℚ) :=
  (List.range n).map (fun i => (List.range 6).map (fun j => data (i * 6 + j)))

/-- Modelled from the spec: decoding of one structured output row under the
declared per-row layout `[class_id, score, x1, y1, x2, y2]` (spec §4.5); the
row is dropped unless the score/class filter passes.  A row that is not a
6-float record yields nothing. -/
def specDecodeRow (classes : List String) (conf_threshold : ℚ)
    (inv_scale_x inv_scale_y : ℚ) (cols rows : ℕ) :
    List ℚ → List DetectionBox
  | [c, s, a1, b1, a2, b2] =>
    if conf_threshold ≤ s ∧ 0 ≤ truncToInt c ∧
        truncToInt c < (classes.length : ℤ) then
      [{ x1 := clamp 0 (cols : ℚ) (a1 * inv_scale_x)
         y1 := clamp 0 (rows : ℚ) (b1 * inv_scale_y)
         x2 := clamp 0 (cols : ℚ) (a2 * inv_scale_x)
         y2 := clamp 0 (rows : ℚ) (b2 * inv_scale_y)
         score := s
         class_id := truncToInt c
         class_name := classes.getD (truncToInt c).toNat "" }]
    else []
  | _ => []

/-- Modelled from the spec: the decoder over the structured row list,
emitting the surviving rows in order (spec §4.5). -/
def specDecode (classes : List String) (conf_threshold : ℚ)
    (inv_scale_x inv_scale_y : ℚ) (cols rows : ℕ)
    (rs : List (List ℚ)) : List DetectionBox :=
  (rs.map (specDecodeRow classes conf_threshold inv_scale_x inv_scale_y cols rows)).flatten

/-- Fixed-point rendering with `p` digits after the decimal point: the model
of streaming a float through `std::fixed << std::setprecision(p)`. -/
def formatFixed (p : ℕ) (q : ℚ) : String :=
  let scaled : ℤ := round (q * (10 : ℚ) ^ p)
  let sign := if scaled < 0 then "-" else ""
  let n := scaled.natAbs
  let ipart := n / 10 ^ p
  let fpart := n % 10 ^ p
  if p = 0 then sign ++ toString ipart
  else
    let fs := toString fpart
    sign ++ toString ipart ++ "." ++
      String.mk (List.replicate (p - fs.length) '0') ++ fs

/-- The manual comma-joining loop of the serializers (`json << ","` except
after the last element). -/
def joinComma : List String → String
  | [] => ""
  | [s] => s
  | s :: rest => s ++ "," ++ joinComma rest

/-- One detection object as streamed by `detectionsToJson`
(`doc_detector.cpp:202-210`): coordinates at fixed precision 2, score at
fixed precision 4. -/
def boxJsonCore (b : DetectionBox) : String :=
  "\x7b\"x1\":" ++ formatFixed 2 b.x1 ++
    ",\"y1\":" ++ formatFixed 2 b.y1 ++
    ",\"x2\":" ++ formatFixed 2 b.x2 ++
    ",\"y2\":" ++ formatFixed 2 b.y2 ++
    ",\"score\":" ++ formatFixed 4 b.score ++
    ",\"class_id\":" ++ toString b.class_id ++
    ",\"class_name\":\"" ++ b.class_name ++ "\"\x7d"

/-- One detection object as streamed by the boundary-layer serializers in
`detectLayout` (`native_lib.cpp:53-61`) and `detectLayoutFromBytes`
(`native_lib.cpp:110-118`): coordinates at fixed precision 1, score at fixed
precision 4. -/
def boxJsonBoundary (b : DetectionBox) : String :=
  "\x7b\"x1\":" ++ formatFixed 1 b.x1 ++
    ",\"y1\":" ++ formatFixed 1 b.y1 ++
    ",\"x2\":" ++ formatFixed 1 b.x2 ++
    ",\"y2\":" ++ formatFixed 1 b.y2 ++
    ",\"score\":" ++ formatFixed 4 b.score ++
    ",\"class_id\":" ++ toString b.class_id ++
    ",\"class_name\":\"" ++ b.class_name ++ "\"\x7d"

/-- `detectionsToJson` (`doc_detector.cpp:196-218`). -/
def detectionsToJson (detections : List DetectionBox) : String :=
  "\x7b\"detections\":[" ++ joinComma (detections.map boxJsonCore) ++
    "],\"count\":" ++ toString detections.length ++ "\x7d"

/-- The JSON response built by both boundary-layer entry points
(`native_lib.cpp:48-74` and `native_lib.cpp:105-131`): the detection array,
then `count`, `inference_time_ms`, `image_width`, `image_height`. -/
def boundaryResponseJson (detections : List DetectionBox)
    (inference_time_ms image_width image_height : ℤ) : String :=
  "\x7b\"detections\":[" ++ joinComma (detections.map boxJsonBoundary) ++
    "],\"count\":" ++ toString detections.length ++
    ",\"inference_time_ms\":" ++ toString inference_time_ms ++
    ",\"image_width\":" ++ toString image_width ++
    ",\"image_height\":" ++ toString image_height ++ "\x7d"

/-! ## Concrete stub models and inputs used by counterexamples and witnesses

Each `OrtSession` stub fixes a declared input count and a `run` function
returning a fixed raw output tensor (or a fixed failure), exactly the kind of
stub model the spec's own test sketch describes. -/

/-- A 640×640 input image (so the 2-input scale factor is `(1, 1)`). -/
def imageSq : CvMat := ⟨640, 640⟩

/-- A raw output row whose coordinates are swapped: `x1 = 300 > x2 = 100`. -/
def dataSwapped : ℕ → ℚ := fun k => ([0, 1, 300, 50, 100, 200] : List ℚ).getD k 0

/-- A 2-input stub model emitting the single swapped-coordinate row. -/
def envSwapped : OrtEnvModel := ⟨.ok ⟨2, 1, fun _ _ => .ok ⟨1, dataSwapped⟩⟩⟩

/-- The box `detectDocLayout` emits for the swapped row on `imageSq`. -/
def invertedBox : DetectionBox :=
  { x1 := 300, y1 := 50, x2 := 100, y2 := 200, score := 1, class_id := 0,
    class_name := "text" }

/-- A 3-input stub model whose `run` fails. -/
def sessionThree : OrtSession := ⟨3, 1, fun _ _ => .error .inferenceFailure⟩

/-- Environment wrapping `sessionThree`. -/
def envThree : OrtEnvModel := ⟨.ok sessionThree⟩

/-- A 2-input stub model whose `run` fails. -/
def sessionTwo : OrtSession := ⟨2, 1, fun _ _ => .error .inferenceFailure⟩

/-- Environment wrapping `sessionTwo`. -/
def envTwo : OrtEnvModel := ⟨.ok sessionTwo⟩

/-- A raw output row that passes the filter: class 0, score 1, box
`(10, 10)-(20, 20)`. -/
def dataPassing : ℕ → ℚ := fun k => ([0, 1, 10, 10, 20, 20] : List ℚ).getD k 0

/-- A stub model declaring 4 inputs whose `run` succeeds with one passing
row. -/
def envFour : OrtEnvModel := ⟨.ok ⟨4, 1, fun _ _ => .ok ⟨1, dataPassing⟩⟩⟩

/-- A stub model declaring 4 inputs whose `run` fails. -/
def sessionFourFail : OrtSession := ⟨4, 1, fun _ _ => .error .inferenceFailure⟩

/-- Environment wrapping `sessionFourFail`. -/
def envFourFail : OrtEnvModel := ⟨.ok sessionFourFail⟩

/-- The raw row of the spec's concrete scenario:
`[class_id=2, score=0.87, x1=100, y1=50, x2=300, y2=200]`. -/
def dataScenario : ℕ → ℚ :=
  fun k => ([2, 87/100, 100, 50, 300, 200] : List ℚ).getD k 0

/-- A 2-input stub model emitting the scenario row. -/
def envScenario : OrtEnvModel := ⟨.ok ⟨2, 1, fun _ _ => .ok ⟨1, dataScenario⟩⟩⟩

/-- The scenario's 1280×960 input image (1280 wide, 960 tall). -/
def imageScenario : CvMat := ⟨960, 1280⟩

/-- An environment in which session creation itself fails. -/
def envLoadFail : OrtEnvModel := ⟨.error .modelLoadFailure⟩

/-- An empty input image (zero rows). -/
def imageEmpty : CvMat := ⟨0, 640⟩

/-- A raw output row with in-range class 0 but negative score `-1`. -/
def dataNegScore : ℕ → ℚ :=
  fun k => ([0, -1, 10, 10, 20, 20] : List ℚ).getD k 0

/-- A 2-input stub model emitting the negative-score row. -/
def envNegScore : OrtEnvModel := ⟨.ok ⟨2, 1, fun _ _ => .ok ⟨1, dataNegScore⟩⟩⟩

/-- A sample detection used to instantiate serializer theorems. -/
def sampleBox : DetectionBox :=
  { x1 := 200, y1 := 75, x2 := 600, y2 := 300, score := 87/100, class_id := 2,
    class_name := "table" }

/-! ## General lemmas about the decoder and the pipeline -/

theorem clamp_nonneg (hi v : ℚ) : 0 ≤ clamp 0 hi v := by
  unfold clamp cppMax cppMin
  split <;> split <;> linarith

theorem clamp_le (hi v : ℚ) (h : 0 ≤ hi) : clamp 0 hi v ≤ hi := by
  unfold clamp cppMax cppMin
  split <;> split <;> linarith

/-- The decode loop is the in-order filter of the candidate-row indices
followed by box construction. -/
theorem decode_eq_filter_map (classes : List String) (conf ix iy : ℚ)
    (cols rows : ℕ) (data : ℕ → ℚ) (n : ℕ) :
    decodeDetections classes conf ix iy cols rows data n =
      ((List.range n).filter (fun i => decide (rowKeep classes conf data i))).map
        (rowBox classes ix iy cols rows data) := by
  induction n with
  | zero => rfl
  | succ n ih =>
    rw [decodeDetections, List.range_succ, List.filter_append, List.map_append, ih]
    congr 1
    by_cases h : rowKeep classes conf data n <;> simp [List.filter, h]

/-- Every element of the decoded list is a `rowBox` of some candidate row. -/
theorem mem_decode_is_rowBox (classes : List String) (conf ix iy : ℚ)
    (cols rows : ℕ) (data : ℕ → ℚ) (n : ℕ) (b : DetectionBox)
    (hb : b ∈ decodeDetections classes conf ix iy cols rows data n) :
    ∃ i, b = rowBox classes ix iy cols rows data i := by
  induction n with
  | zero => simp [decodeDetections] at hb
  | succ n ih =>
    rw [decodeDetections] at hb
    rcases List.mem_append.mp hb with h | h
    · exact ih h
    · by_cases hk : rowKeep classes conf data n
      · simp [hk] at h
        exact ⟨n, h⟩
      · simp [hk] at h

/-- Each coordinate of a constructed box is already clamped into frame. -/
theorem rowBox_bounds (classes : List String) (ix iy : ℚ) (cols rows : ℕ)
    (data : ℕ → ℚ) (i : ℕ) :
    (0 ≤ (rowBox classes ix iy cols rows data i).x1 ∧
      (rowBox classes ix iy cols rows data i).x1 ≤ (cols : ℚ)) ∧
    (0 ≤ (rowBox classes ix iy cols rows data i).y1 ∧
      (rowBox classes ix iy cols rows data i).y1 ≤ (rows : ℚ)) ∧
    (0 ≤ (rowBox classes ix iy cols rows data i).x2 ∧
      (rowBox classes ix iy cols rows data i).x2 ≤ (cols : ℚ)) ∧
    (0 ≤ (rowBox classes ix iy cols rows data i).y2 ∧
      (rowBox classes ix iy cols rows data i).y2 ≤ (rows : ℚ)) := by
  refine ⟨⟨?_, ?_⟩, ⟨?_, ?_⟩, ⟨?_, ?_⟩, ⟨?_, ?_⟩⟩ <;>
    first
      | exact clamp_nonneg _ _
      | exact clamp_le _ _ (Nat.cast_nonneg _)

theorem except_ok_of_map_ok {ε α β : Type} (f : α → β) (x : Except ε α)
    (r : β) (h : Except.map f x = .ok r) : ∃ a, x = .ok a ∧ r = f a := by
  cases x with
  | error e => simp [Except.map] at h
  | ok a => exact ⟨a, rfl, by simpa [Except.map] using h.symm⟩

/-- With a 3-input session, the body submits the `im_shape`/`image`/
`scale_factor` tensor set and decodes with identity inverse scaling. -/
theorem pipelineBody_three (env : OrtEnvModel) (image : CvMat)
    (conf : ℚ) (classes : List String) (s : OrtSession)
    (hs : env.createSession = .ok s) (h3 : s.numInputs = 3) :
    pipelineBody env image conf classes =
      Except.map
        (fun out => decodeDetections classes conf 1 1
          image.cols image.rows out.data out.dim0)
        (s.run ["im_shape", "image", "scale_factor"]
          [TensorVal.floats [(image.rows : ℚ), (image.cols : ℚ)],
           TensorVal.imageBlob (preprocessImage image 640 640).1,
           TensorVal.floats [1, 1]]) := by
  unfold pipelineBody
  rw [hs]
  simp only [h3, bind, Except.bind, beq_self_eq_true, if_true]
  cases s.run ["im_shape", "image", "scale_factor"]
      [TensorVal.floats [(image.rows : ℚ), (image.cols : ℚ)],
       TensorVal.imageBlob (preprocessImage image 640 640).1,
       TensorVal.floats [1, 1]] <;> rfl

/-- With any non-3-input session, the body submits the `image`/`scale_factor`
tensor set with the real scale factor and decodes with the inverted scale. -/
theorem pipelineBody_notThree (env : OrtEnvModel) (image : CvMat)
    (conf : ℚ) (classes : List String) (s : OrtSession)
    (hs : env.createSession = .ok s) (h3 : s.numInputs ≠ 3) :
    pipelineBody env image conf classes =
      Except.map
        (fun out => decodeDetections classes conf
          (1 / (preprocessImage image 640 640).2.1)
          (1 / (preprocessImage image 640 640).2.2)
          image.cols image.rows out.data out.dim0)
        (s.run ["image", "scale_factor"]
          [TensorVal.imageBlob (preprocessImage image 640 640).1,
           TensorVal.floats [(preprocessImage image 640 640).2.1,
                             (preprocessImage image 640 640).2.2]]) := by
  unfold pipelineBody
  rw [hs]
  have hb : (s.numInputs == 3) = false := by simp [h3]
  simp only [hb, bind, Except.bind, if_false, Bool.false_eq_true]
  cases s.run ["image", "scale_factor"]
      [TensorVal.imageBlob (preprocessImage image 640 640).1,
       TensorVal.floats [(preprocessImage image 640 640).2.1,
                         (preprocessImage image 640 640).2.2]] <;> rfl

/-- Every successful body result is some run of the decode loop over the
image's own width and height. -/
theorem pipelineBody_ok_shape (env : OrtEnvModel) (image : CvMat)
    (conf : ℚ) (classes : List String) (r : List DetectionBox)
    (h : pipelineBody env image conf classes = .ok r) :
    ∃ ix iy data n, r = decodeDetections classes conf ix iy
      image.cols image.rows data n := by
  cases hs : env.createSession with
  | error e =>
    rw [pipelineBody, hs] at h
    simp [bind, Except.bind] at h
  | ok s =>
    by_cases h3 : s.numInputs = 3
    · rw [pipelineBody_three env image conf classes s hs h3] at h
      obtain ⟨out, _, hr⟩ := except_ok_of_map_ok _ _ _ h
      exact ⟨1, 1, out.data, out.dim0, hr⟩
    · rw [pipelineBody_notThree env image conf classes s hs h3] at h
      obtain ⟨out, _, hr⟩ := except_ok_of_map_ok _ _ _ h
      exact ⟨_, _, out.data, out.dim0, hr⟩

/-- A failing body is swallowed by the boundary into an empty list. -/
theorem detect_of_body_error (env : OrtEnvModel) (image : CvMat)
    (conf : ℚ) (classes : List String) (e : OrtError)
    (h : pipelineBody env image conf classes = .error e) :
    detectDocLayout env image conf classes = [] := by
  unfold detectDocLayout
  rw [h]
  split <;> rfl

/-! ## Claim theorems -/

/-- Claim C1, amended: every `DetectionBox` returned by `detectDocLayout` has
each coordinate individually clamped into the image frame —
`0 ≤ x1 ≤ image_width`, `0 ≤ x2 ≤ image_width`, `0 ≤ y1 ≤ image_height`,
`0 ≤ y2 ≤ image_height` — for every environment, image, threshold and
taxonomy.  The orderings `x1 ≤ x2` and `y1 ≤ y2` claimed by the spec are not
established when the raw row has its coordinates out of order (see the
counterexample). -/
theorem detect_coords_within_image_bounds (env : OrtEnvModel) (image : CvMat)
    (conf : ℚ) (classes : List String) (b : DetectionBox)
    (hb : b ∈ detectDocLayout env image conf classes) :
    (0 ≤ b.x1 ∧ b.x1 ≤ (image.cols : ℚ)) ∧
    (0 ≤ b.y1 ∧ b.y1 ≤ (image.rows : ℚ)) ∧
    (0 ≤ b.x2 ∧ b.x2 ≤ (image.cols : ℚ)) ∧
    (0 ≤ b.y2 ∧ b.y2 ≤ (image.rows : ℚ)) := by
  unfold detectDocLayout at hb
  split at hb
  · simp at hb
  · cases hp : pipelineBody env image conf classes with
    | error e => rw [hp] at hb; simp at hb
    | ok r =>
      rw [hp] at hb
      simp only at hb
      obtain ⟨ix, iy, d, n, rfl⟩ :=
        pipelineBody_ok_shape env image conf classes r hp
      obtain ⟨i, rfl⟩ :=
        mem_decode_is_rowBox classes conf ix iy image.cols image.rows d n b hb
      exact rowBox_bounds classes ix iy image.cols image.rows d i

/-- Claim C1, counterexample: a 2-input stub model emitting the single raw
row `[0, 1, 300, 50, 100, 200]` (raw `x1 = 300 > x2 = 100`) on a 640×640
image makes `detectDocLayout` return a box with `x1 = 300 > x2 = 100`: the
independent per-coordinate clamp never restores `x1 ≤ x2`, refuting the
claimed unconditional `x1 ≤ x2` invariant. -/
theorem detect_emits_box_with_x1_gt_x2 :
    detectDocLayout envSwapped imageSq 0 ["text"] = [invertedBox] ∧
    invertedBox.x2 < invertedBox.x1 := by
  constructor
  · norm_num [detectDocLayout, pipelineBody, decodeDetections, rowKeep, rowBox,
      clamp, cppMin, cppMax, preprocessImage, truncToInt, CvMat.isEmpty,
      dataSwapped, envSwapped, imageSq, invertedBox, Except.bind, bind, pure,
      Except.pure, Int.toNat]
  · norm_num [invertedBox]

/-- Claim C1, witness: the amended bounds theorem applied to the concrete box
emitted for the swapped-coordinate stub. -/
theorem detect_coords_within_image_bounds_witness :
    (0 ≤ invertedBox.x1 ∧ invertedBox.x1 ≤ (imageSq.cols : ℚ)) ∧
    (0 ≤ invertedBox.y1 ∧ invertedBox.y1 ≤ (imageSq.rows : ℚ)) ∧
    (0 ≤ invertedBox.x2 ∧ invertedBox.x2 ≤ (imageSq.cols : ℚ)) ∧
    (0 ≤ invertedBox.y2 ∧ invertedBox.y2 ≤ (imageSq.rows : ℚ)) :=
  detect_coords_within_image_bounds envSwapped imageSq 0 ["text"] invertedBox
    (by
      have h : detectDocLayout envSwapped imageSq 0 ["text"] = [invertedBox] := by
        norm_num [detectDocLayout, pipelineBody, decodeDetections, rowKeep, rowBox,
          clamp, cppMin, cppMax, preprocessImage, truncToInt, CvMat.isEmpty,
          dataSwapped, envSwapped, imageSq, invertedBox, Except.bind, bind, pure,
          Except.pure, Int.toNat]
      rw [h]
      exact List.mem_singleton_self _)

/-- Claim C2: the decode loop over the flat output buffer agrees with the
spec-side decoder that first chunks the buffer into 6-wide rows (row `i` =
elements `i*6 … i*6+5`) and then interprets each row positionally as
`[class_id, score, x1, y1, x2, y2]` with `class_id` truncated to integer —
i.e. the source reads class from offset `i*6+0`, score from `i*6+1` and the
coordinates from `i*6+2 … i*6+5`. -/
theorem decode_matches_row_layout (classes : List String) (conf ix iy : ℚ)
    (cols rows : ℕ) (data : ℕ → ℚ) (n : ℕ) :
    decodeDetections classes conf ix iy cols rows data n =
      specDecode classes conf ix iy cols rows (tensorRows data n) := by
  induction n with
  | zero => rfl
  | succ n ih =>
    rw [decodeDetections, ih]
    unfold tensorRows specDecode
    have h6 : List.range 6 = [0, 1, 2, 3, 4, 5] := rfl
    rw [h6, List.range_succ, List.map_append, List.map_append, List.flatten_append]
    congr 1
    by_cases h : rowKeep classes conf data n
    · simp only [List.map_cons, List.map_nil, List.flatten_cons, List.flatten_nil,
        specDecodeRow, rowKeep, rowBox] at h ⊢
      rw [if_pos h]
      simp
    · simp only [List.map_cons, List.map_nil, List.flatten_cons, List.flatten_nil,
        specDecodeRow, rowKeep, rowBox] at h ⊢
      rw [if_neg h]
      simp

/-- Claim C3: schema selection is a pure function of the declared input
count.  With exactly 3 inputs the submitted tensors are named
`im_shape` (carrying the original image height/width as floats), `image`,
and `scale_factor` fixed to `(1, 1)`, and decoding uses identity inverse
scaling; with any other input count the submitted tensors are named `image`
and `scale_factor` carrying the real resize scale, and each decoded
coordinate is multiplied by `1/sx` resp. `1/sy`. -/
theorem schema_selected_by_input_count (env : OrtEnvModel) (image : CvMat)
    (conf : ℚ) (classes : List String) (s : OrtSession)
    (hs : env.createSession = .ok s) :
    (s.numInputs = 3 →
      pipelineBody env image conf classes =
        Except.map
          (fun out => decodeDetections classes conf 1 1
            image.cols image.rows out.data out.dim0)
          (s.run ["im_shape", "image", "scale_factor"]
            [TensorVal.floats [(image.rows : ℚ), (image.cols : ℚ)],
             TensorVal.imageBlob (preprocessImage image 640 640).1,
             TensorVal.floats [1, 1]])) ∧
    (s.numInputs ≠ 3 →
      pipelineBody env image conf classes =
        Except.map
          (fun out => decodeDetections classes conf
            (1 / (preprocessImage image 640 640).2.1)
            (1 / (preprocessImage image 640 640).2.2)
            image.cols image.rows out.data out.dim0)
          (s.run ["image", "scale_factor"]
            [TensorVal.imageBlob (preprocessImage image 640 640).1,
             TensorVal.floats [(preprocessImage image 640 640).2.1,
                               (preprocessImage image 640 640).2.2]])) :=
  ⟨fun h3 => pipelineBody_three env image conf classes s hs h3,
   fun h3 => pipelineBody_notThree env image conf classes s hs h3⟩

/-- Claim C3, witness: the schema-selection theorem instantiated at a
concrete 3-input stub session and at a concrete 2-input stub session. -/
theorem schema_selected_by_input_count_witness :
    (pipelineBody envThree imageSq (1/2) ["text"] =
      Except.map
        (fun out => decodeDetections ["text"] (1/2) 1 1
          imageSq.cols imageSq.rows out.data out.dim0)
        (sessionThree.run ["im_shape", "image", "scale_factor"]
          [TensorVal.floats [(imageSq.rows : ℚ), (imageSq.cols : ℚ)],
           TensorVal.imageBlob (preprocessImage imageSq 640 640).1,
           TensorVal.floats [1, 1]])) ∧
    (pipelineBody envTwo imageSq (1/2) ["text"] =
      Except.map
        (fun out => decodeDetections ["text"] (1/2)
          (1 / (preprocessImage imageSq 640 640).2.1)
          (1 / (preprocessImage imageSq 640 640).2.2)
          imageSq.cols imageSq.rows out.data out.dim0)
        (sessionTwo.run ["image", "scale_factor"]
          [TensorVal.imageBlob (preprocessImage imageSq 640 640).1,
           TensorVal.floats [(preprocessImage imageSq 640 640).2.1,
                             (preprocessImage imageSq 640 640).2.2]])) :=
  ⟨(schema_selected_by_input_count envThree imageSq (1/2) ["text"]
      sessionThree rfl).1 rfl,
   (schema_selected_by_input_count envTwo imageSq (1/2) ["text"]
      sessionTwo rfl).2 (by decide)⟩

/-- Claim C4, counterexample: the source never checks for input counts
outside `{2, 3}` — the branch at `doc_detector.cpp:82` only asks whether the
count equals 3.  A stub model declaring 4 inputs whose run succeeds is
therefore executed under the 2-input tensor schema and yields a non-empty
detection list, refuting the claim that such a model is detected as an
unsupported schema and answered with an empty list. -/
theorem four_input_model_yields_detections :
    detectDocLayout envFour imageSq 0 ["text"] =
      [{ x1 := 10, y1 := 10, x2 := 20, y2 := 20, score := 1, class_id := 0,
         class_name := "text" }] ∧
    detectDocLayout envFour imageSq 0 ["text"] ≠ [] := by
  have h : detectDocLayout envFour imageSq 0 ["text"] =
      [{ x1 := 10, y1 := 10, x2 := 20, y2 := 20, score := 1, class_id := 0,
         class_name := "text" }] := by
    norm_num [detectDocLayout, pipelineBody, decodeDetections, rowKeep, rowBox,
      clamp, cppMin, cppMax, preprocessImage, truncToInt, CvMat.isEmpty,
      dataPassing, envFour, imageSq, Except.bind, bind, pure,
      Except.pure, Int.toNat]
  exact ⟨h, by rw [h]; simp⟩

/-- Claim C4, amended: a model declaring an input count outside `{2, 3}` is
not detected as an unsupported schema; it is submitted under the 2-input
tensor schema, and only if the runtime then rejects the call does the
fail-soft handler turn the failure into an empty detection list. -/
theorem nonstandard_input_count_two_input_fail_soft (env : OrtEnvModel)
    (image : CvMat) (conf : ℚ) (classes : List String) (s : OrtSession)
    (hs : env.createSession = .ok s) (h2 : s.numInputs ≠ 2)
    (h3 : s.numInputs ≠ 3) :
    pipelineBody env image conf classes =
      Except.map
        (fun out => decodeDetections classes conf
          (1 / (preprocessImage image 640 640).2.1)
          (1 / (preprocessImage image 640 640).2.2)
          image.cols image.rows out.data out.dim0)
        (s.run ["image", "scale_factor"]
          [TensorVal.imageBlob (preprocessImage image 640 640).1,
           TensorVal.floats [(preprocessImage image 640 640).2.1,
                             (preprocessImage image 640 640).2.2]]) ∧
    (∀ e, s.run ["image", "scale_factor"]
          [TensorVal.imageBlob (preprocessImage image 640 640).1,
           TensorVal.floats [(preprocessImage image 640 640).2.1,
                             (preprocessImage image 640 640).2.2]] = .error e →
      detectDocLayout env image conf classes = []) := by
  refine ⟨pipelineBody_notThree env image conf classes s hs h3, fun e he => ?_⟩
  apply detect_of_body_error env image conf classes e
  rw [pipelineBody_notThree env image conf classes s hs h3, he]
  rfl

/-- Claim C4, witness: the amended theorem instantiated at a 4-input stub
session whose run fails. -/
theorem nonstandard_input_count_two_input_fail_soft_witness :
    pipelineBody envFourFail imageSq (1/2) ["text"] =
      Except.map
        (fun out => decodeDetections ["text"] (1/2)
          (1 / (preprocessImage imageSq 640 640).2.1)
          (1 / (preprocessImage imageSq 640 640).2.2)
          imageSq.cols imageSq.rows out.data out.dim0)
        (sessionFourFail.run ["image", "scale_factor"]
          [TensorVal.imageBlob (preprocessImage imageSq 640 640).1,
           TensorVal.floats [(preprocessImage imageSq 640 640).2.1,
                             (preprocessImage imageSq 640 640).2.2]]) ∧
    detectDocLayout envFourFail imageSq (1/2) ["text"] = [] :=
  ⟨(nonstandard_input_count_two_input_fail_soft envFourFail imageSq (1/2)
      ["text"] sessionFourFail rfl (by decide) (by decide)).1,
   (nonstandard_input_count_two_input_fail_soft envFourFail imageSq (1/2)
      ["text"] sessionFourFail rfl (by decide) (by decide)).2
     .inferenceFailure rfl⟩

/-- Claim C5, counterexample: for the spec's 1280×960 image the modelled
`preprocessImage` (spec §4.1) gives scale `(640/1280, 640/960) = (1/2, 2/3)`,
not `(1/2, 1/2)`, and the scenario row decodes to `y1 = 75, y2 = 300`, not to
the claimed `y1 = 100, y2 = 400`. -/
theorem scenario_scale_and_box_differ :
    (preprocessImage imageScenario 640 640).2 ≠ ((1:ℚ)/2, (1:ℚ)/2) ∧
    detectDocLayout envScenario imageScenario (1/2) ["a", "b", "c"] ≠
      [{ x1 := 200, y1 := 100, x2 := 600, y2 := 400, score := 87/100,
         class_id := 2, class_name := "c" }] := by
  constructor
  · norm_num [preprocessImage, imageScenario, Prod.ext_iff]
  · have h : detectDocLayout envScenario imageScenario (1/2) ["a", "b", "c"] =
        [{ x1 := 200, y1 := 75, x2 := 600, y2 := 300, score := 87/100,
           class_id := 2, class_name := "c" }] := by
      norm_num [detectDocLayout, pipelineBody, decodeDetections, rowKeep, rowBox,
        clamp, cppMin, cppMax, preprocessImage, truncToInt, CvMat.isEmpty,
        dataScenario, envScenario, imageScenario, Except.bind, bind, pure,
        Except.pure, Int.toNat]
    rw [h]
    norm_num [DetectionBox.mk.injEq]

/-- Claim C5, amended: for the 1280×960 image the computed `ScaleFactor` is
`(1/2, 2/3)`, and under the 2-input schema the raw row
`[2, 0.87, 100, 50, 300, 200]` with threshold `0.5` decodes to
`DetectionBox{x1=200, y1=75, x2=600, y2=300, score=0.87, class_id=2,
class_name=taxonomy[2]}` for every taxonomy with more than two entries. -/
theorem scenario_decodes_with_per_axis_scales (classes : List String)
    (h : 2 < classes.length) :
    (preprocessImage imageScenario 640 640).2 = ((1:ℚ)/2, (2:ℚ)/3) ∧
    detectDocLayout envScenario imageScenario (1/2) classes =
      [{ x1 := 200, y1 := 75, x2 := 600, y2 := 300, score := 87/100,
         class_id := 2, class_name := classes.getD 2 "" }] := by
  have h' : (2:ℤ) < (classes.length : ℤ) := by exact_mod_cast h
  constructor
  · norm_num [preprocessImage, imageScenario]
  · norm_num [detectDocLayout, pipelineBody, decodeDetections, rowKeep, rowBox,
      clamp, cppMin, cppMax, preprocessImage, truncToInt, CvMat.isEmpty,
      dataScenario, envScenario, imageScenario, Except.bind, bind, pure,
      Except.pure, Int.toNat, h']

/-- Claim C5, witness: the amended scenario theorem at the concrete taxonomy
`["a", "b", "c"]`. -/
theorem scenario_decodes_with_per_axis_scales_witness :
    2 < (["a", "b", "c"] : List String).length ∧
    ((preprocessImage imageScenario 640 640).2 = ((1:ℚ)/2, (2:ℚ)/3) ∧
      detectDocLayout envScenario imageScenario (1/2) ["a", "b", "c"] =
        [{ x1 := 200, y1 := 75, x2 := 600, y2 := 300, score := 87/100,
           class_id := 2, class_name := "c" }]) :=
  ⟨by decide, scenario_decodes_with_per_axis_scales ["a", "b", "c"] (by decide)⟩

/-- Claim C6: a `DetectionBox` is emitted for candidate row `i` exactly when
both `score ≥ conf_threshold` and `0 ≤ class_id < taxonomy size` hold: the
decoded list is precisely the in-order filter of the row indices by that
conjunction, mapped to boxes — rows failing either conjunct are silently
skipped, and the decoder is a total function producing no error state. -/
theorem row_emitted_iff_score_and_class_pass (classes : List String)
    (conf ix iy : ℚ) (cols rows : ℕ) (data : ℕ → ℚ) (n : ℕ) :
    decodeDetections classes conf ix iy cols rows data n =
      ((List.range n).filter (fun i =>
        decide (conf ≤ data (i * 6 + 1)) &&
          (decide (0 ≤ truncToInt (data (i * 6 + 0))) &&
            decide (truncToInt (data (i * 6 + 0)) < (classes.length : ℤ))))).map
        (rowBox classes ix iy cols rows data) := by
  rw [decode_eq_filter_map]
  simp only [rowKeep, Bool.decide_and]

/-- Claim C7: whenever the pipeline body fails — session creation failure,
runtime rejection of the submitted tensor set, or any other inference-time
error — `detectDocLayout` returns the empty detection list.  The model of
`detectDocLayout` is a total function into `List DetectionBox`, so no
exception crosses its boundary. -/
theorem internal_failure_returns_empty_list (env : OrtEnvModel) (image : CvMat)
    (conf : ℚ) (classes : List String) (e : OrtError)
    (h : pipelineBody env image conf classes = .error e) :
    detectDocLayout env image conf classes = [] :=
  detect_of_body_error env image conf classes e h

/-- Claim C7, witness: an environment whose session creation fails yields the
empty list. -/
theorem internal_failure_returns_empty_list_witness :
    pipelineBody envLoadFail imageSq (1/2) ["text"] = .error .modelLoadFailure ∧
    detectDocLayout envLoadFail imageSq (1/2) ["text"] = [] :=
  ⟨rfl, internal_failure_returns_empty_list envLoadFail imageSq (1/2) ["text"]
    .modelLoadFailure rfl⟩

/-- Claim C8: an empty input image makes `detectDocLayout` return the empty
list, and the result is independent of the runtime environment — the
empty-image check precedes session creation, preprocessing and inference, so
no model work is consulted. -/
theorem empty_image_returns_empty (env : OrtEnvModel) (image : CvMat)
    (conf : ℚ) (classes : List String) (h : image.isEmpty = true) :
    detectDocLayout env image conf classes = [] ∧
    ∀ env', detectDocLayout env image conf classes =
      detectDocLayout env' image conf classes := by
  constructor
  · simp [detectDocLayout, h]
  · intro env'
    simp [detectDocLayout, h]

/-- Claim C8, witness: a zero-row image returns the empty list even in an
environment whose session creation would fail, and equals the result in an
unrelated environment. -/
theorem empty_image_returns_empty_witness :
    CvMat.isEmpty imageEmpty = true ∧
    detectDocLayout envLoadFail imageEmpty (1/2) ["text"] = [] ∧
    detectDocLayout envLoadFail imageEmpty (1/2) ["text"] =
      detectDocLayout envThree imageEmpty (1/2) ["text"] :=
  ⟨rfl,
   (empty_image_returns_empty envLoadFail imageEmpty (1/2) ["text"] rfl).1,
   (empty_image_returns_empty envLoadFail imageEmpty (1/2) ["text"] rfl).2 envThree⟩

/-- Claim C9, counterexample: a raw row with in-range class 0 but score `-1`
is dropped at `conf_threshold = 0` because the filter demands
`score ≥ 0`, refuting "every row whose class_id is in range appears exactly
once" as a statement over all raw output tensors. -/
theorem zero_threshold_drops_negative_score_row :
    detectDocLayout envNegScore imageSq 0 ["text"] = [] ∧
    dataNegScore (0 * 6 + 1) < 0 ∧
    0 ≤ truncToInt (dataNegScore (0 * 6 + 0)) ∧
    truncToInt (dataNegScore (0 * 6 + 0)) <
      ((["text"] : List String).length : ℤ) := by
  refine ⟨?_, by norm_num [dataNegScore],
    by norm_num [dataNegScore, truncToInt],
    by norm_num [dataNegScore, truncToInt]⟩
  norm_num [detectDocLayout, pipelineBody, decodeDetections, rowKeep, rowBox,
    clamp, cppMin, cppMax, preprocessImage, truncToInt, CvMat.isEmpty,
    dataNegScore, envNegScore, imageSq, Except.bind, bind, pure,
    Except.pure, Int.toNat]

/-- Claim C9, amended: at `conf_threshold = 0` the decoded list is exactly
the rows with nonnegative score and in-range class, each appearing once, in
the model's native row order (the filtered index list is increasing; no
sorting is introduced). -/
theorem zero_threshold_emits_nonneg_score_rows_in_order (classes : List String)
    (ix iy : ℚ) (cols rows : ℕ) (data : ℕ → ℚ) (n : ℕ) :
    decodeDetections classes 0 ix iy cols rows data n =
      ((List.range n).filter (fun i =>
        decide (0 ≤ data (i * 6 + 1)) &&
          (decide (0 ≤ truncToInt (data (i * 6 + 0))) &&
            decide (truncToInt (data (i * 6 + 0)) < (classes.length : ℤ))))).map
        (rowBox classes ix iy cols rows data) := by
  rw [decode_eq_filter_map]
  simp only [rowKeep, Bool.decide_and]

/-! ## Serializer lemmas and the serialization claim -/

theorem joinComma_decomp (l : List String) (x : String) (hx : x ∈ l) :
    ∃ s t, joinComma l = s ++ (x ++ t) := by
  induction l with
  | nil => simp at hx
  | cons a tail ih =>
    rcases List.mem_cons.mp hx with rfl | hmem
    · cases tail with
      | nil => exact ⟨"", "", by simp [joinComma]⟩
      | cons b t2 =>
        exact ⟨"", "," ++ joinComma (b :: t2), by
          simp [joinComma, String.append_assoc]⟩
    · cases tail with
      | nil => simp at hmem
      | cons b t2 =>
        obtain ⟨s, t, hst⟩ := ih hmem
        refine ⟨a ++ "," ++ s, t, ?_⟩
        have hj : joinComma (a :: b :: t2) = a ++ "," ++ joinComma (b :: t2) := rfl
        rw [hj, hst]
        simp [String.append_assoc]

theorem boxJsonCore_score_decomp (b : DetectionBox) :
    ∃ s t, boxJsonCore b = s ++ (",\"score\":" ++ (formatFixed 4 b.score ++ t)) := by
  refine ⟨"\x7b\"x1\":" ++ formatFixed 2 b.x1 ++ ",\"y1\":" ++ formatFixed 2 b.y1 ++
    ",\"x2\":" ++ formatFixed 2 b.x2 ++ ",\"y2\":" ++ formatFixed 2 b.y2,
    ",\"class_id\":" ++ toString b.class_id ++ ",\"class_name\":\"" ++
      b.class_name ++ "\"\x7d", ?_⟩
  simp [boxJsonCore, String.append_assoc]

theorem boxJsonBoundary_score_decomp (b : DetectionBox) :
    ∃ s t, boxJsonBoundary b = s ++ (",\"score\":" ++ (formatFixed 4 b.score ++ t)) := by
  refine ⟨"\x7b\"x1\":" ++ formatFixed 1 b.x1 ++ ",\"y1\":" ++ formatFixed 1 b.y1 ++
    ",\"x2\":" ++ formatFixed 1 b.x2 ++ ",\"y2\":" ++ formatFixed 1 b.y2,
    ",\"class_id\":" ++ toString b.class_id ++ ",\"class_name\":\"" ++
      b.class_name ++ "\"\x7d", ?_⟩
  simp [boxJsonBoundary, String.append_assoc]

/-- Claim C10: in the plain serializer and in the boundary-layer serializer
the score of every detection is rendered through the fixed-point formatter at
4 decimal places, while the coordinate fields use 2 (plain) resp. 1
(boundary) decimal places — a different precision than the score. -/
theorem score_serialized_with_four_decimals (ds : List DetectionBox)
    (b : DetectionBox) (hb : b ∈ ds) :
    (∃ s t, detectionsToJson ds =
      s ++ (",\"score\":" ++ (formatFixed 4 b.score ++ t))) ∧
    (∀ timeMs w h : ℤ, ∃ s t, boundaryResponseJson ds timeMs w h =
      s ++ (",\"score\":" ++ (formatFixed 4 b.score ++ t))) ∧
    (∃ t, boxJsonCore b = "\x7b\"x1\":" ++ (formatFixed 2 b.x1 ++ t)) ∧
    (∃ t, boxJsonBoundary b = "\x7b\"x1\":" ++ (formatFixed 1 b.x1 ++ t)) := by
  refine ⟨?_, ?_, ?_, ?_⟩
  · obtain ⟨s1, t1, h1⟩ := joinComma_decomp (ds.map boxJsonCore)
      (boxJsonCore b) (List.mem_map_of_mem _ hb)
    obtain ⟨s2, t2, h2⟩ := boxJsonCore_score_decomp b
    refine ⟨"\x7b\"detections\":[" ++ (s1 ++ s2),
      t2 ++ (t1 ++ ("],\"count\":" ++ (toString ds.length ++ "\x7d"))), ?_⟩
    rw [detectionsToJson, h1, h2]
    simp [String.append_assoc]
  · intro timeMs w h
    obtain ⟨s1, t1, h1⟩ := joinComma_decomp (ds.map boxJsonBoundary)
      (boxJsonBoundary b) (List.mem_map_of_mem _ hb)
    obtain ⟨s2, t2, h2⟩ := boxJsonBoundary_score_decomp b
    refine ⟨"\x7b\"detections\":[" ++ (s1 ++ s2),
      t2 ++ (t1 ++ ("],\"count\":" ++ (toString ds.length ++
        (",\"inference_time_ms\":" ++ (toString timeMs ++
          (",\"image_width\":" ++ (toString w ++
            (",\"image_height\":" ++ (toString h ++ "\x7d"))))))))), ?_⟩
    rw [boundaryResponseJson, h1, h2]
    simp [String.append_assoc]
  · exact ⟨",\"y1\":" ++ formatFixed 2 b.y1 ++ ",\"x2\":" ++ formatFixed 2 b.x2 ++
      ",\"y2\":" ++ formatFixed 2 b.y2 ++ ",\"score\":" ++ formatFixed 4 b.score ++
      ",\"class_id\":" ++ toString b.class_id ++ ",\"class_name\":\"" ++
      b.class_name ++ "\"\x7d", by simp [boxJsonCore, String.append_assoc]⟩
  · exact ⟨",\"y1\":" ++ formatFixed 1 b.y1 ++ ",\"x2\":" ++ formatFixed 1 b.x2 ++
      ",\"y2\":" ++ formatFixed 1 b.y2 ++ ",\"score\":" ++ formatFixed 4 b.score ++
      ",\"class_id\":" ++ toString b.class_id ++ ",\"class_name\":\"" ++
      b.class_name ++ "\"\x7d", by simp [boxJsonBoundary, String.append_assoc]⟩

/-- Claim C10, witness: the serialization theorem instantiated at a
singleton detection list. -/
theorem score_serialized_with_four_decimals_witness :
    (∃ s t, detectionsToJson [sampleBox] =
      s ++ (",\"score\":" ++ (formatFixed 4 sampleBox.score ++ t))) ∧
    (∃ s t, boundaryResponseJson [sampleBox] 5 1280 960 =
      s ++ (",\"score\":" ++ (formatFixed 4 sampleBox.score ++ t))) :=
  ⟨(score_serialized_with_four_decimals [sampleBox] sampleBox
      (List.mem_singleton_self _)).1,
   (score_serialized_with_four_decimals [sampleBox] sampleBox
      (List.mem_singleton_self _)).2.1 5 1280 960⟩
